import Mathlib

/-!
Verification of the trim state machine and signal-blending engine of the
joystick-gremlin trim plugin (src/trim.py), embedded shallowly over ℚ.

The engine owns three mutable fields per instance (current_trim_value,
current_trim_offset, physical_value) and four configuration constants
(trim_sensitivity, trim_increment, enable_scaled_trim, auto_center_on_init).
Floats are modelled as exact rationals; the source uses only +, *, abs,
comparisons and max/min clamping, all of which are exact on the sampled
rational inputs.
-/

namespace TrimPlugin

/-- Configuration constants of one plugin instance, fixed at construction
(the GUI variables trim_sensitivity, trim_increment, enable_scaled_trim,
auto_center_on_init of src/trim.py). -/
structure TrimConfig where
  trim_sensitivity : ℚ
  trim_increment : ℚ
  enable_scaled_trim : Bool
  auto_center_on_init : Bool
deriving Repr, DecidableEq

/-- Mutable per-instance state of class TrimInstance (src/trim.py lines 83-89),
omitting the identity and proxy fields that carry no numeric semantics. -/
structure TrimInstance where
  current_trim_value : ℚ
  current_trim_offset : ℚ
  physical_value : ℚ
deriving Repr, DecidableEq

/-- TrimInstance.__init__ (src/trim.py lines 84-88): all numeric state zero. -/
def TrimInstance.init : TrimInstance :=
  { current_trim_value := 0, current_trim_offset := 0, physical_value := 0 }

/-- The clamp idiom max(-1.0, min(1.0, x)) used at src/trim.py lines 136, 157. -/
def clampUnit (x : ℚ) : ℚ :=
  max (-1) (min 1 x)

/-- TrimInstance.calculate_trimmed_output (src/trim.py lines 103-127):
the raw blended output before the final clamp, selected by
enable_scaled_trim. -/
def calculate_trimmed_output (cfg : TrimConfig) (physical trim_offset : ℚ) : ℚ :=
  if cfg.enable_scaled_trim then
    if physical ≥ 0 then
      if trim_offset ≥ 0 then
        let remaining_range := 1 - trim_offset
        if remaining_range > 1/100 then
          trim_offset + physical * remaining_range
        else
          1
      else
        trim_offset + physical * (1 - trim_offset)
    else
      if trim_offset ≤ 0 then
        let remaining_range := -1 - trim_offset
        if |remaining_range| > 1/100 then
          trim_offset + physical * |remaining_range|
        else
          -1
      else
        trim_offset + physical * (1 + trim_offset)
  else
    physical + trim_offset

/-- The output value that TrimInstance.update_output writes to the bound
virtual axis (src/trim.py lines 135-136): the blended output clamped to
[-1.0, 1.0]. -/
def update_output_value (cfg : TrimConfig) (s : TrimInstance) : ℚ :=
  clampUnit (calculate_trimmed_output cfg s.physical_value s.current_trim_offset)

/-- TrimInstance.adjust_trim (src/trim.py lines 153-165): add the delta,
clamp the accumulated trim value to [-1, 1], recompute the offset from the
sensitivity. -/
def adjust_trim (cfg : TrimConfig) (s : TrimInstance) (delta : ℚ) : TrimInstance :=
  let v := clampUnit (s.current_trim_value + delta)
  { s with current_trim_value := v, current_trim_offset := v * cfg.trim_sensitivity }

/-- TrimInstance.reset_trim (src/trim.py lines 167-173): zero both trim fields. -/
def reset_trim (s : TrimInstance) : TrimInstance :=
  { s with current_trim_value := 0, current_trim_offset := 0 }

/-- The on_physical_axis handler (src/trim.py lines 187-190): store the
delivered sample into physical_value as-is, then update the output. -/
def on_physical_axis (s : TrimInstance) (value : ℚ) : TrimInstance :=
  { s with physical_value := value }

/-- plugin_init (src/trim.py lines 245-256): zero the physical value and,
when auto_center_on_init is set, re-center the trim fields. -/
def plugin_init (cfg : TrimConfig) (s : TrimInstance) : TrimInstance :=
  let s1 := { s with physical_value := (0 : ℚ) }
  if cfg.auto_center_on_init then
    { s1 with current_trim_value := 0, current_trim_offset := 0 }
  else
    s1

/-- One engine transition, as the host event layer drives the instance:
a physical-axis sample, a trim-up or trim-down button press (which call
adjust_trim with plus or minus trim_increment, src/trim.py lines 206, 222),
a reset press, or plugin (re)activation. -/
inductive Step (cfg : TrimConfig) : TrimInstance → TrimInstance → Prop
  | axis (s : TrimInstance) (v : ℚ) : Step cfg s (on_physical_axis s v)
  | trimUp (s : TrimInstance) : Step cfg s (adjust_trim cfg s cfg.trim_increment)
  | trimDown (s : TrimInstance) : Step cfg s (adjust_trim cfg s (-cfg.trim_increment))
  | reset (s : TrimInstance) : Step cfg s (reset_trim s)
  | activate (s : TrimInstance) : Step cfg s (plugin_init cfg s)

/-- States reachable from the freshly constructed instance. -/
def Reachable (cfg : TrimConfig) (s : TrimInstance) : Prop :=
  Relation.ReflTransGen (Step cfg) TrimInstance.init s

/-- A scaled-mode configuration with neutral sensitivity 1.0 and the GUI
default increment 0.01, used to sample concrete behaviours. -/
def cfgScaled : TrimConfig :=
  { trim_sensitivity := 1, trim_increment := 1/100,
    enable_scaled_trim := true, auto_center_on_init := true }

/-- An additive-mode configuration with neutral sensitivity. -/
def cfgAdditive : TrimConfig :=
  { trim_sensitivity := 1, trim_increment := 1/100,
    enable_scaled_trim := false, auto_center_on_init := true }

/-- A legal configuration at the extreme ends of the GUI ranges:
sensitivity 3.0 (maximum of [0.1, 3.0]) and increment 0.1
(maximum of [0.001, 0.1]). -/
def cfgHighSens : TrimConfig :=
  { trim_sensitivity := 3, trim_increment := 1/10,
    enable_scaled_trim := true, auto_center_on_init := true }

example : clampUnit (9/10 + 1/2) = 1 := by norm_num [clampUnit]
example : calculate_trimmed_output cfgScaled (1/2) (1/2) = 3/4 := by
  norm_num [calculate_trimmed_output, cfgScaled]
example : calculate_trimmed_output cfgScaled 0 (995/1000) = 1 := by
  norm_num [calculate_trimmed_output, cfgScaled]
example : update_output_value cfgAdditive ⟨2/10, 2/10, 1/2⟩ = 7/10 := by
  norm_num [update_output_value, calculate_trimmed_output, clampUnit, cfgAdditive]

lemma neg_one_le_clampUnit (x : ℚ) : -1 ≤ clampUnit x :=
  le_max_left _ _

lemma clampUnit_le_one (x : ℚ) : clampUnit x ≤ 1 :=
  max_le (by norm_num) (min_le_left _ _)

lemma clampUnit_eq_self {x : ℚ} (h1 : -1 ≤ x) (h2 : x ≤ 1) : clampUnit x = x := by
  unfold clampUnit
  rw [min_eq_right h2, max_eq_right h1]

lemma clampUnit_eq_one {x : ℚ} (h : 1 ≤ x) : clampUnit x = 1 := by
  unfold clampUnit
  rw [min_eq_left h, max_eq_right (by norm_num)]

lemma clampUnit_eq_neg_one {x : ℚ} (h : x ≤ -1) : clampUnit x = -1 := by
  unfold clampUnit
  rw [min_eq_right (le_trans h (by norm_num)), max_eq_left h]

lemma abs_clampUnit_le_one (x : ℚ) : |clampUnit x| ≤ 1 :=
  abs_le.mpr ⟨neg_one_le_clampUnit x, clampUnit_le_one x⟩

/-- The inductive state invariant: the accumulated trim value is clamped
and the trim offset is the derived product. -/
def TrimInv (cfg : TrimConfig) (s : TrimInstance) : Prop :=
  |s.current_trim_value| ≤ 1 ∧
  s.current_trim_offset = s.current_trim_value * cfg.trim_sensitivity

lemma trimInv_init (cfg : TrimConfig) : TrimInv cfg TrimInstance.init := by
  constructor
  · norm_num [TrimInstance.init]
  · norm_num [TrimInstance.init]

lemma trimInv_adjust (cfg : TrimConfig) (s : TrimInstance) (delta : ℚ) :
    TrimInv cfg (adjust_trim cfg s delta) := by
  refine ⟨?_, rfl⟩
  exact abs_clampUnit_le_one _

lemma trimInv_reset (cfg : TrimConfig) (s : TrimInstance) :
    TrimInv cfg (reset_trim s) := by
  refine ⟨?_, ?_⟩ <;> simp [reset_trim]

lemma trimInv_axis (cfg : TrimConfig) (s : TrimInstance) (v : ℚ)
    (h : TrimInv cfg s) : TrimInv cfg (on_physical_axis s v) := h

lemma trimInv_plugin_init (cfg : TrimConfig) (s : TrimInstance)
    (h : TrimInv cfg s) : TrimInv cfg (plugin_init cfg s) := by
  unfold plugin_init
  by_cases hc : cfg.auto_center_on_init
  · simp only [hc, if_true]
    refine ⟨?_, ?_⟩ <;> simp [TrimInv]
  · simp only [hc, if_false]
    exact h

lemma trimInv_step {cfg : TrimConfig} {s t : TrimInstance}
    (h : TrimInv cfg s) (hstep : Step cfg s t) : TrimInv cfg t := by
  cases hstep with
  | axis v => exact trimInv_axis cfg s v h
  | trimUp => exact trimInv_adjust cfg s _
  | trimDown => exact trimInv_adjust cfg s _
  | reset => exact trimInv_reset cfg s
  | activate => exact trimInv_plugin_init cfg s h

lemma reachable_trimInv {cfg : TrimConfig} {s : TrimInstance}
    (h : Reachable cfg s) : TrimInv cfg s := by
  induction h with
  | refl => exact trimInv_init cfg
  | tail _ hstep ih => exact trimInv_step ih hstep

lemma adjust_trim_fixed_at_one (cfg : TrimConfig) (u : TrimInstance) (d : ℚ)
    (hd : 0 ≤ d) (hu : u.current_trim_value = 1) :
    (adjust_trim cfg u d).current_trim_value = 1 := by
  show clampUnit (u.current_trim_value + d) = 1
  rw [hu]
  exact clampUnit_eq_one (by linarith)

lemma iterate_adjust_half_fixed (cfg : TrimConfig) (n : ℕ) (u : TrimInstance)
    (hu : u.current_trim_value = 1) :
    ((fun w => adjust_trim cfg w (1/2))^[n] u).current_trim_value = 1 := by
  induction n generalizing u with
  | zero => simpa using hu
  | succ k ih =>
    rw [Function.iterate_succ_apply]
    exact ih _ (adjust_trim_fixed_at_one cfg u (1/2) (by norm_num) hu)

/-- Claim C1, counterexample: the on_physical_axis handler does not clamp the
delivered sample before storing it; delivering the out-of-range sample 2.0 to
a fresh instance leaves physical_value equal to 2.0, outside [-1.0, 1.0]. -/
theorem physical_value_not_clamped_on_input :
    (on_physical_axis TrimInstance.init 2).physical_value = 2 ∧
    ¬ (on_physical_axis TrimInstance.init 2).physical_value ≤ 1 := by
  refine ⟨rfl, ?_⟩
  norm_num [on_physical_axis, TrimInstance.init]

/-- Claim C1, amended: setInput stores the delivered sample into
physical_value exactly as received, without any clamping, and leaves the trim
fields unchanged; physical_value stays in [-1.0, 1.0] only when the caller
delivers in-range samples (only the reported output is clamped). -/
theorem on_physical_axis_stores_raw_sample (s : TrimInstance) (v : ℚ) :
    (on_physical_axis s v).physical_value = v ∧
    (on_physical_axis s v).current_trim_value = s.current_trim_value ∧
    (on_physical_axis s v).current_trim_offset = s.current_trim_offset :=
  ⟨rfl, rfl, rfl⟩

/-- Claim C2: the output value computed by update_output carries a final clamp
to [-1.0, 1.0], so for every state (any physical value and trim offset, in
either blending mode) the reported value lies within [-1.0, 1.0]. -/
theorem update_output_value_mem_unit_interval (cfg : TrimConfig) (s : TrimInstance) :
    -1 ≤ update_output_value cfg s ∧ update_output_value cfg s ≤ 1 :=
  ⟨neg_one_le_clampUnit _, clampUnit_le_one _⟩

/-- Claim C4: in additive mode, the output reported after a state change with
physical value v and trim offset t (both in [-1, 1]) equals
clamp(v + t, -1, 1); an out-of-range sum saturates silently. -/
theorem additive_output_eq_clamp_sum (cfg : TrimConfig) (tv v t : ℚ)
    (hmode : cfg.enable_scaled_trim = false)
    (hv1 : -1 ≤ v) (hv2 : v ≤ 1) (ht1 : -1 ≤ t) (ht2 : t ≤ 1) :
    update_output_value cfg ⟨tv, t, v⟩ = clampUnit (v + t) := by
  simp [update_output_value, calculate_trimmed_output, hmode]

/-- Witness for claim C4 at v = 0.5, t = 0.2 in the additive configuration. -/
theorem additive_output_eq_clamp_sum_witness :
    update_output_value cfgAdditive ⟨0, 2/10, 1/2⟩ = clampUnit (1/2 + 2/10) :=
  additive_output_eq_clamp_sum cfgAdditive 0 (1/2) (2/10) rfl
    (by norm_num) (by norm_num) (by norm_num) (by norm_num)

/-- Claim C6: adjust_trim sets the trim value to clamp(old + delta, -1, 1) and
recomputes the offset as the new value times the sensitivity; moreover the
accumulator saturates: from trim value 0.9, any number of repeated
adjust_trim(+0.5) calls leaves the trim value exactly 1 after the first one. -/
theorem adjust_trim_clamps_and_saturates (cfg : TrimConfig) (s : TrimInstance) (delta : ℚ) :
    ((adjust_trim cfg s delta).current_trim_value = clampUnit (s.current_trim_value + delta) ∧
     (adjust_trim cfg s delta).current_trim_offset =
       (adjust_trim cfg s delta).current_trim_value * cfg.trim_sensitivity) ∧
    (s.current_trim_value = 9/10 →
      ∀ n : ℕ, ((fun u => adjust_trim cfg u (1/2))^[n + 1] s).current_trim_value = 1) := by
  refine ⟨⟨rfl, rfl⟩, fun h n => ?_⟩
  rw [Function.iterate_succ_apply]
  refine iterate_adjust_half_fixed cfg n _ ?_
  show clampUnit (s.current_trim_value + 1/2) = 1
  rw [h]
  exact clampUnit_eq_one (by norm_num)

/-- Witness for claim C6: three successive adjust_trim(+0.5) calls from trim
value 0.9 end at exactly 1. -/
theorem adjust_trim_clamps_and_saturates_witness :
    ((fun u => adjust_trim cfgScaled u (1/2))^[3] ⟨9/10, 9/10, 0⟩).current_trim_value = 1 :=
  (adjust_trim_clamps_and_saturates cfgScaled ⟨9/10, 9/10, 0⟩ 0).2 rfl 2

/-- Claim C7: reset_trim unconditionally zeroes both trim fields in one step,
for every prior state. -/
theorem reset_trim_centers (s : TrimInstance) :
    (reset_trim s).current_trim_value = 0 ∧ (reset_trim s).current_trim_offset = 0 :=
  ⟨rfl, rfl⟩

/-- Claim C8: whenever the derivation trimOffset = trimValue * sensitivity
holds of a state, it holds again after each of the operations (a physical
sample, an adjust_trim with any delta, a reset, a plugin activation), and it
holds of the freshly constructed instance; adjust_trim and reset_trim
establish it unconditionally by recomputing the offset. -/
theorem trim_offset_derived_after_every_operation (cfg : TrimConfig) (s : TrimInstance)
    (h : s.current_trim_offset = s.current_trim_value * cfg.trim_sensitivity) :
    TrimInstance.init.current_trim_offset =
      TrimInstance.init.current_trim_value * cfg.trim_sensitivity ∧
    (∀ v, (on_physical_axis s v).current_trim_offset =
      (on_physical_axis s v).current_trim_value * cfg.trim_sensitivity) ∧
    (∀ d, (adjust_trim cfg s d).current_trim_offset =
      (adjust_trim cfg s d).current_trim_value * cfg.trim_sensitivity) ∧
    (reset_trim s).current_trim_offset =
      (reset_trim s).current_trim_value * cfg.trim_sensitivity ∧
    (plugin_init cfg s).current_trim_offset =
      (plugin_init cfg s).current_trim_value * cfg.trim_sensitivity := by
  refine ⟨by simp [TrimInstance.init], fun v => h, fun d => rfl, by simp [reset_trim], ?_⟩
  unfold plugin_init
  by_cases hc : cfg.auto_center_on_init
  · simp [hc]
  · simpa [hc] using h

/-- Witness for claim C8: the derivation holds after adjust_trim(5) from the
fresh instance under the scaled configuration. -/
theorem trim_offset_derived_after_every_operation_witness :
    (adjust_trim cfgScaled TrimInstance.init 5).current_trim_offset =
      (adjust_trim cfgScaled TrimInstance.init 5).current_trim_value *
        cfgScaled.trim_sensitivity :=
  (trim_offset_derived_after_every_operation cfgScaled TrimInstance.init
    (by simp [TrimInstance.init])).2.2.1 5

/-- Claim C3: in scaled mode the blended output follows the four-branch
algorithm of the source, with the two 0.01-epsilon saturation branches: for
v >= 0 and t >= 0 the output is t + v*(1 - t) when 1 - t > 0.01 and exactly 1
otherwise; for v >= 0 and t < 0 it is t + v*(1 - t); for v < 0 and t <= 0 it
is t + v*abs(-1 - t) when abs(-1 - t) > 0.01 and exactly -1 otherwise; for
v < 0 and t > 0 it is t + v*(1 + t). The function is total: near-zero
headroom is resolved by the epsilon branches, never by failing. -/
theorem calculate_trimmed_output_scaled_branches (cfg : TrimConfig) (v t : ℚ)
    (hmode : cfg.enable_scaled_trim = true) :
    (0 ≤ v → 0 ≤ t →
      (1 - t > 1/100 → calculate_trimmed_output cfg v t = t + v * (1 - t)) ∧
      (¬ 1 - t > 1/100 → calculate_trimmed_output cfg v t = 1)) ∧
    (0 ≤ v → t < 0 → calculate_trimmed_output cfg v t = t + v * (1 - t)) ∧
    (v < 0 → t ≤ 0 →
      (|(-1 : ℚ) - t| > 1/100 →
        calculate_trimmed_output cfg v t = t + v * |(-1 : ℚ) - t|) ∧
      (¬ |(-1 : ℚ) - t| > 1/100 → calculate_trimmed_output cfg v t = -1)) ∧
    (v < 0 → 0 < t → calculate_trimmed_output cfg v t = t + v * (1 + t)) := by
  refine ⟨fun hv ht => ⟨fun hr => ?_, fun hr => ?_⟩, fun hv ht => ?_,
    fun hv ht => ⟨fun hr => ?_, fun hr => ?_⟩, fun hv ht => ?_⟩ <;>
  · simp only [calculate_trimmed_output, hmode, if_true]
    split_ifs <;> first | rfl | linarith

/-- Witness for claim C3 at v = 0.5, t = 0.5 in the scaled configuration:
headroom branch with remaining range 0.5. -/
theorem calculate_trimmed_output_scaled_branches_witness :
    calculate_trimmed_output cfgScaled (1/2) (1/2) = 1/2 + 1/2 * (1 - 1/2) :=
  ((calculate_trimmed_output_scaled_branches cfgScaled (1/2) (1/2) rfl).1
    (by norm_num) (by norm_num)).1 (by norm_num)

/-- Claim C10: in scaled mode, whenever the trim offset is at least 0.99 the
reported output is exactly 1 for every nonnegative physical value (including
a centered stick, where the output jumps to 1 instead of the trim offset);
symmetrically, whenever the trim offset is at most -0.99 the reported output
is exactly -1 for every negative physical value. -/
theorem scaled_output_saturates_in_epsilon_band (cfg : TrimConfig) (tv v t : ℚ)
    (hmode : cfg.enable_scaled_trim = true) :
    (99/100 ≤ t → 0 ≤ v → update_output_value cfg ⟨tv, t, v⟩ = 1) ∧
    (t ≤ -(99/100) → v < 0 → update_output_value cfg ⟨tv, t, v⟩ = -1) := by
  constructor
  · intro ht hv
    have hcalc : calculate_trimmed_output cfg v t = 1 := by
      simp only [calculate_trimmed_output, hmode, if_true]
      split_ifs <;> first | rfl | linarith
    show clampUnit (calculate_trimmed_output cfg v t) = 1
    rw [hcalc]
    exact clampUnit_eq_one le_rfl
  · intro ht hv
    show clampUnit (calculate_trimmed_output cfg v t) = -1
    have habs : |(-1 : ℚ) - t| = -1 - t ∨ |(-1 : ℚ) - t| ≤ 1/100 := by
      rcases le_or_lt (1/100) (-1 - t) with h | h
      · exact Or.inl (abs_of_nonneg (by linarith))
      · rcases le_or_lt ((-1 : ℚ) - t) 0 with h2 | h2
        · rw [abs_of_nonpos h2]
          right
          linarith
        · rw [abs_of_pos h2]
          right
          linarith
    have hcalc : calculate_trimmed_output cfg v t ≤ -1 := by
      simp only [calculate_trimmed_output, hmode, if_true]
      split_ifs with h1 h2 h3 <;> try linarith
      · rcases habs with h | h
        · rw [h]
          have hmul : v * (-1 - t) ≤ 0 :=
            mul_nonpos_of_nonpos_of_nonneg (le_of_lt hv) (by linarith)
          linarith
        · linarith
    rw [clampUnit_eq_neg_one hcalc]

/-- Witness for claim C10: scaled mode with trim offset 0.995 and a centered
stick reports exactly 1. -/
theorem scaled_output_saturates_in_epsilon_band_witness :
    update_output_value cfgScaled ⟨0, 995/1000, 0⟩ = 1 :=
  (scaled_output_saturates_in_epsilon_band cfgScaled 0 0 (995/1000) rfl).1
    (by norm_num) (by norm_num)

lemma calculate_scaled_at_one (cfg : TrimConfig) (t : ℚ)
    (hmode : cfg.enable_scaled_trim = true) (ht : t < 99/100) :
    calculate_trimmed_output cfg 1 t = 1 := by
  simp only [calculate_trimmed_output, hmode, if_true]
  split_ifs <;> first | ring1 | linarith

lemma calculate_scaled_at_neg_one (cfg : TrimConfig) (t : ℚ)
    (hmode : cfg.enable_scaled_trim = true) (ht1 : -1 ≤ t) (ht : -(99/100) < t) :
    calculate_trimmed_output cfg (-1) t = -1 := by
  have habs : |(-1 : ℚ) - t| = 1 + t := by
    rw [abs_of_nonpos (by linarith)]
    ring
  simp only [calculate_trimmed_output, hmode, if_true]
  split_ifs <;> first | (rw [habs]; ring1) | ring1 | linarith [habs]

lemma calculate_scaled_interior (cfg : TrimConfig) (v t : ℚ)
    (hmode : cfg.enable_scaled_trim = true) (hv1 : -1 < v) (hv2 : v < 1)
    (ht1 : -(99/100) < t) (ht2 : t < 99/100) :
    -1 < calculate_trimmed_output cfg v t ∧ calculate_trimmed_output cfg v t < 1 := by
  have habs : |(-1 : ℚ) - t| = 1 + t := by
    rw [abs_of_nonpos (by linarith)]
    ring
  simp only [calculate_trimmed_output, hmode, if_true]
  split_ifs with h1 h2 h3 h4 h5 <;> constructor <;> nlinarith

/-- Claim C9: in scaled mode, for v and t in [-1, 1] with t not within 0.01
of +1 or -1, the reported output at every v strictly inside (-1, 1) lies
strictly between the outputs reported at v = -1 and at v = +1 for the same t,
and the output at v = +1 equals exactly 1 when t >= 0: full deflection always
reaches the corresponding extreme regardless of trim position. -/
theorem scaled_output_strictly_between_extremes (cfg : TrimConfig) (v t : ℚ)
    (hmode : cfg.enable_scaled_trim = true)
    (hv1 : -1 ≤ v) (hv2 : v ≤ 1) (ht1 : -1 ≤ t) (ht2 : t ≤ 1)
    (hth : |t - 1| > 1/100) (htl : |t + 1| > 1/100) :
    (-1 < v → v < 1 →
      update_output_value cfg ⟨0, t, -1⟩ < update_output_value cfg ⟨0, t, v⟩ ∧
      update_output_value cfg ⟨0, t, v⟩ < update_output_value cfg ⟨0, t, 1⟩) ∧
    (0 ≤ t → update_output_value cfg ⟨0, t, 1⟩ = 1) := by
  have htu : t < 99/100 := by
    rw [abs_of_nonpos (by linarith)] at hth
    linarith
  have htd : -(99/100) < t := by
    rw [abs_of_nonneg (by linarith)] at htl
    linarith
  have hone : update_output_value cfg ⟨0, t, 1⟩ = 1 := by
    show clampUnit (calculate_trimmed_output cfg 1 t) = 1
    rw [calculate_scaled_at_one cfg t hmode htu]
    exact clampUnit_eq_one le_rfl
  have hnegone : update_output_value cfg ⟨0, t, -1⟩ = -1 := by
    show clampUnit (calculate_trimmed_output cfg (-1) t) = -1
    rw [calculate_scaled_at_neg_one cfg t hmode ht1 htd]
    exact clampUnit_eq_neg_one le_rfl
  refine ⟨fun hv3 hv4 => ?_, fun _ => hone⟩
  obtain ⟨hlo, hhi⟩ := calculate_scaled_interior cfg v t hmode hv3 hv4 htd htu
  have hmid : update_output_value cfg ⟨0, t, v⟩ = calculate_trimmed_output cfg v t := by
    show clampUnit (calculate_trimmed_output cfg v t) = calculate_trimmed_output cfg v t
    exact clampUnit_eq_self (le_of_lt hlo) (le_of_lt hhi)
  rw [hone, hnegone, hmid]
  exact ⟨hlo, hhi⟩

/-- Witness for claim C9 at v = 0.5, t = 0 in the scaled configuration. -/
theorem scaled_output_strictly_between_extremes_witness :
    (update_output_value cfgScaled ⟨0, 0, -1⟩ < update_output_value cfgScaled ⟨0, 0, 1/2⟩ ∧
     update_output_value cfgScaled ⟨0, 0, 1/2⟩ < update_output_value cfgScaled ⟨0, 0, 1⟩) ∧
    update_output_value cfgScaled ⟨0, 0, 1⟩ = 1 := by
  have h := scaled_output_strictly_between_extremes cfgScaled (1/2) 0 rfl
    (by norm_num) (by norm_num) (by norm_num) (by norm_num) (by norm_num) (by norm_num)
  exact ⟨h.1 (by norm_num) (by norm_num), h.2 (by norm_num)⟩

/-- Four trim-up presses under the extreme legal configuration (sensitivity
3.0, increment 0.1). -/
def fourTrimUps : TrimInstance :=
  adjust_trim cfgHighSens
    (adjust_trim cfgHighSens
      (adjust_trim cfgHighSens
        (adjust_trim cfgHighSens TrimInstance.init cfgHighSens.trim_increment)
        cfgHighSens.trim_increment)
      cfgHighSens.trim_increment)
    cfgHighSens.trim_increment

/-- Claim C5, counterexample: with the legal sensitivity 3.0 and legal
increment 0.1, the state reached by four trim-up presses from the fresh
instance is reachable, its trim value 0.4 is in [-1, 1], yet its trim offset
is 1.2, outside [-1.0, 1.0]. -/
theorem trim_offset_exceeds_unit_range :
    Reachable cfgHighSens fourTrimUps ∧
    1/10 ≤ cfgHighSens.trim_sensitivity ∧ cfgHighSens.trim_sensitivity ≤ 3 ∧
    -1 ≤ fourTrimUps.current_trim_value ∧ fourTrimUps.current_trim_value ≤ 1 ∧
    ¬ fourTrimUps.current_trim_offset ≤ 1 := by
  have hval : fourTrimUps.current_trim_value = 2/5 := by
    norm_num [fourTrimUps, adjust_trim, clampUnit, TrimInstance.init, cfgHighSens,
      max_def, min_def]
  have hoff : fourTrimUps.current_trim_offset = 6/5 := by
    norm_num [fourTrimUps, adjust_trim, clampUnit, TrimInstance.init, cfgHighSens,
      max_def, min_def]
  refine ⟨?_, by norm_num [cfgHighSens], by norm_num [cfgHighSens],
    by rw [hval]; norm_num, by rw [hval]; norm_num, by rw [hoff]; norm_num⟩
  exact ((((Relation.ReflTransGen.refl.tail (Step.trimUp _)).tail
    (Step.trimUp _)).tail (Step.trimUp _)).tail (Step.trimUp _))

/-- Claim C5, amended: in every reachable state the trim offset is bounded in
magnitude by the sensitivity (since the trim value stays in [-1, 1] and the
offset is its product with the sensitivity); hence the trim offset lies
within [-1.0, 1.0] whenever the sensitivity is at most 1.0, but a legal
sensitivity above 1.0 can push it outside that range. -/
theorem trim_offset_bounded_by_sensitivity (cfg : TrimConfig) (s : TrimInstance)
    (hsens : 0 ≤ cfg.trim_sensitivity) (h : Reachable cfg s) :
    |s.current_trim_offset| ≤ cfg.trim_sensitivity ∧
    (cfg.trim_sensitivity ≤ 1 →
      -1 ≤ s.current_trim_offset ∧ s.current_trim_offset ≤ 1) := by
  obtain ⟨hval, hoff⟩ := reachable_trimInv h
  have habs : |s.current_trim_offset| ≤ cfg.trim_sensitivity := by
    rw [hoff, abs_mul, abs_of_nonneg hsens]
    calc |s.current_trim_value| * cfg.trim_sensitivity
        ≤ 1 * cfg.trim_sensitivity := mul_le_mul_of_nonneg_right hval hsens
      _ = cfg.trim_sensitivity := one_mul _
  exact ⟨habs, fun h1 => abs_le.mp (le_trans habs h1)⟩

/-- Witness for the amended claim C5: after one trim-up press under the
extreme legal configuration, the trim offset magnitude is at most the
sensitivity 3.0. -/
theorem trim_offset_bounded_by_sensitivity_witness :
    |(adjust_trim cfgHighSens TrimInstance.init
        cfgHighSens.trim_increment).current_trim_offset| ≤
      cfgHighSens.trim_sensitivity :=
  (trim_offset_bounded_by_sensitivity cfgHighSens _ (by norm_num [cfgHighSens])
    (Relation.ReflTransGen.refl.tail (Step.trimUp _))).1

end TrimPlugin
